import Mathlib

/-
  Verification of the portfolio admin frontend core:
  notification (toast) queue, session cache, and API client.

  The definitions below are shallow embeddings of
    frontend/src/context/ToastContext.jsx
    frontend/src/services/api.js
    frontend/src/utils/helpers.js (session cache part).
  JavaScript objects with a fixed documented field set are embedded as
  structures; fields that may be absent in a partial object are Options;
  JavaScript string falsiness (the empty string is falsy) is modelled
  explicitly wherever the source relies on it.
-/

namespace Portfolio

/-- JSON-like values: request and response payloads and cached data.
Numbers are restricted to integers, which covers every literal the
source produces. -/
inductive Value : Type where
  | null : Value
  | bool (b : Bool) : Value
  | num (n : Int) : Value
  | str (s : String) : Value
  | arr (elems : List Value) : Value
  | obj (fields : List (String × Value)) : Value

/-- Test used where the source compares a value against null. -/
def Value.isNull : Value → Bool
  | .null => true
  | _ => false

/-- Lookup in a string-keyed association list; models getItem on a
web Storage object (none plays the role of null). -/
def lookupKV {α : Type} : List (String × α) → String → Option α
  | [], _ => none
  | (k1, v1) :: rest, k => if k1 = k then some v1 else lookupKV rest k

/-- Insert or overwrite; models setItem. -/
def insertKV {α : Type} : List (String × α) → String → α → List (String × α)
  | [], k, v => [(k, v)]
  | (k1, v1) :: rest, k, v =>
      if k1 = k then (k, v) :: rest else (k1, v1) :: insertKV rest k v

/-- Remove a key; models removeItem. -/
def eraseKV {α : Type} : List (String × α) → String → List (String × α)
  | [], _ => []
  | (k1, v1) :: rest, k =>
      if k1 = k then eraseKV rest k else (k1, v1) :: eraseKV rest k

/-- Whether the first list of characters leads the second one. -/
def leadsWith : List Char → List Char → Bool
  | [], _ => true
  | _ :: _, [] => false
  | a :: as, b :: bs => a == b && leadsWith as bs

/-- Whether the first list of characters occurs contiguously inside the
second one. -/
def occursIn (needle : List Char) : List Char → Bool
  | [] => leadsWith needle []
  | c :: rest => leadsWith needle (c :: rest) || occursIn needle rest

/-- JavaScript String.prototype.includes. -/
def jsIncludes (s sub : String) : Bool := occursIn sub.data s.data

/-- JavaScript truthiness of a nullable string: null and the empty
string are falsy. -/
def jsTruthy : Option String → Bool
  | none => false
  | some s => !(s == "")

/-! ## Notification queue (ToastContext.jsx) -/

/-- A toast entry as produced by addToast: every documented field is
present (defaults filled in). -/
structure Toast : Type where
  id : String
  status : String
  progress : Int
  title : String
  message : String
  fileName : String
  action : String
  type : String
  bulkProgress : Option (Int × Int)
deriving DecidableEq, Repr

/-- A partial toast object as passed to addToast or updateToast: each
field may be absent. A present empty string is distinct from an absent
field, exactly as in JavaScript. -/
structure PartialToast : Type where
  id : Option String := none
  status : Option String := none
  progress : Option Int := none
  title : Option String := none
  message : Option String := none
  fileName : Option String := none
  action : Option String := none
  type : Option String := none
  bulkProgress : Option (Option (Int × Int)) := none
deriving DecidableEq, Repr

/-- The entry stored by addToast. The source builds
an object of defaults and then spreads the argument over it, so a field
present in the argument always wins, even when it is falsy; an absent
field gets the documented default. genId stands for the
Date.now plus random identifier generated by the source. -/
def fillToast (genId : String) (t : PartialToast) : Toast where
  id := t.id.getD genId
  status := t.status.getD "pending"
  progress := t.progress.getD 0
  title := t.title.getD ""
  message := t.message.getD ""
  fileName := t.fileName.getD ""
  action := t.action.getD ""
  type := t.type.getD ""
  bulkProgress := t.bulkProgress.getD none

/-- The identifier addToast returns: the supplied id when it is truthy,
else the generated one (the source computes it with a JavaScript or). -/
def addReturnedId (genId : String) (t : PartialToast) : String :=
  match t.id with
  | some s => if s = "" then genId else s
  | none => genId

/-- addToast: appends the filled entry and returns the computed id. -/
def addToast (genId : String) (t : PartialToast) (q : List Toast) :
    String × List Toast :=
  (addReturnedId genId t, q ++ [fillToast genId t])

/-- Shallow merge of a partial update over an entry, as the object
spread in updateToast does: a present update field wins. -/
def mergeToast (t : Toast) (u : PartialToast) : Toast where
  id := u.id.getD t.id
  status := u.status.getD t.status
  progress := u.progress.getD t.progress
  title := u.title.getD t.title
  message := u.message.getD t.message
  fileName := u.fileName.getD t.fileName
  action := u.action.getD t.action
  type := u.type.getD t.type
  bulkProgress := u.bulkProgress.getD t.bulkProgress

/-- Lowercase one character, ASCII range (the keywords the source
matches against are ASCII). -/
def charLower (c : Char) : Char :=
  if 65 ≤ c.toNat ∧ c.toNat ≤ 90 then Char.ofNat (c.toNat + 32) else c

/-- Lowercase a string, character by character. -/
def asciiLower (s : String) : String :=
  String.mk (s.data.map charLower)

/-- The event-type string updateToast classifies: the PRE-update entry
type when truthy, else the lowercased PRE-update action. -/
def eventTypeOf (t : Toast) : String :=
  if t.type = "" then asciiLower t.action else t.type

/-- The data-changed tag dispatched by updateToast, when any: requires
the update to set status to complete on an entry whose status was not
complete, and classifies the PRE-update entry via keyword containment. -/
def dataChangedTag (t : Toast) (u : PartialToast) : Option String :=
  if u.status = some "complete" ∧ t.status ≠ "complete" then
    let e := eventTypeOf t
    if jsIncludes e "upload" || jsIncludes e "uploading" then some "upload"
    else if jsIncludes e "archive" || jsIncludes e "archiving" then some "archive"
    else if jsIncludes e "restore" || jsIncludes e "restoring" then some "restore"
    else if jsIncludes e "delete" || jsIncludes e "deleting" then some "delete"
    else none
  else none

/-- updateToast: maps over the queue, merging the update into every
entry whose id matches, collecting the data-changed tags dispatched
along the way (in entry order). -/
def updateToast (id : String) (u : PartialToast) :
    List Toast → List Toast × List String
  | [] => ([], [])
  | t :: rest =>
      let r := updateToast id u rest
      if t.id = id then
        (mergeToast t u :: r.1, (dataChangedTag t u).toList ++ r.2)
      else
        (t :: r.1, r.2)

/-- removeToast: keeps the entries whose id differs. -/
def removeToast (id : String) (q : List Toast) : List Toast :=
  q.filter (fun t => t.id ≠ id)

/-- One operation on the queue. Generated identifiers are made explicit
arguments of the operations that create entries. -/
inductive ToastOp : Type where
  | add (genId : String) (t : PartialToast)
  | update (id : String) (u : PartialToast)
  | remove (id : String)
  | showSuccess (genId : String) (message title : String)
  | showError (genId : String) (message title : String)
deriving DecidableEq, Repr

/-- The queue after one operation (showSuccess and showError are the
convenience producers of the source, calling addToast). -/
def stepToast (q : List Toast) : ToastOp → List Toast
  | .add genId t => (addToast genId t q).2
  | .update id u => (updateToast id u q).1
  | .remove id => removeToast id q
  | .showSuccess genId m ti =>
      (addToast genId { status := some "complete", title := some ti, message := some m } q).2
  | .showError genId m ti =>
      (addToast genId { status := some "error", title := some ti, message := some m } q).2

/-- Run a sequence of operations from the empty queue. -/
def runToasts (ops : List ToastOp) : List Toast :=
  ops.foldl stepToast []

/-- Modelled from the wording of the specification (refinement side of
claim C1): add appends one entry with the documented defaults filled
in, update shallow-merges the partial fields into the entries whose id
matches, remove deletes the matching entries. -/
def specStepToast (q : List Toast) : ToastOp → List Toast
  | .add genId t => q ++ [fillToast genId t]
  | .update id u => q.map (fun x => if x.id = id then mergeToast x u else x)
  | .remove id => q.filter (fun t => t.id ≠ id)
  | .showSuccess genId m ti =>
      q ++ [fillToast genId { status := some "complete", title := some ti, message := some m }]
  | .showError genId m ti =>
      q ++ [fillToast genId { status := some "error", title := some ti, message := some m }]

/-- The ids currently in the queue, in display order. -/
def queueIds (q : List Toast) : List String := q.map Toast.id

/-- Freshness discipline of one operation relative to the current
queue: an entry-creating operation does not reuse a present id, and an
update carries no id field other than the one it targets (the external
update-toast event channel of the source passes the target id itself). -/
def opOk (q : List Toast) : ToastOp → Prop
  | .add genId t => (fillToast genId t).id ∉ queueIds q
  | .update id u => u.id = none ∨ u.id = some id
  | .remove _ => True
  | .showSuccess genId _ _ => genId ∉ queueIds q
  | .showError genId _ _ => genId ∉ queueIds q

/-- Freshness discipline along a whole run. -/
def okRun : List Toast → List ToastOp → Prop
  | _, [] => True
  | q, op :: ops => opOk q op ∧ okRun (stepToast q op) ops

/-! ## API client (api.js) -/

/-- Typed API error: message, HTTP status (0 reserved for transport
failure) and the parsed response body. -/
structure ApiError : Type where
  message : String
  status : Nat
  data : Value

/-- Derived predicate: auth error on status 401 or 403. -/
def ApiError.isAuthError (e : ApiError) : Bool :=
  e.status == 401 || e.status == 403

/-- Derived predicate: server error on status at least 500. -/
def ApiError.isServerError (e : ApiError) : Bool :=
  decide (500 ≤ e.status)

/-- Derived predicate: network error on status 0. -/
def ApiError.isNetworkError (e : ApiError) : Bool :=
  e.status == 0

def TOKEN_STORAGE_KEY : String := "admin_token"

def USER_INFO_KEY : String := "admin_user_info"

def API_BASE_URL : String := "http://localhost:8000"

def DEMO_SENTINEL : String := "TEST_TOKEN_DEMO_MODE"

/-- The two web Storage areas the client reads: tab-scoped
sessionStorage and persistent localStorage. -/
structure Storage : Type where
  sessionS : List (String × String)
  localS : List (String × String)
deriving DecidableEq, Repr

/-- getToken: the tab-scoped token when truthy, else the persistent
one (a JavaScript or of the two getItem results). -/
def getToken (st : Storage) : Option String :=
  let s := lookupKV st.sessionS TOKEN_STORAGE_KEY
  if jsTruthy s then s else lookupKV st.localS TOKEN_STORAGE_KEY

/-- isLoggedIn: double negation of getToken. -/
def isLoggedIn (st : Storage) : Bool :=
  jsTruthy (getToken st)

/-- isDemoMode: the resolved token equals the reserved sentinel. -/
def isDemoMode (st : Storage) : Bool :=
  getToken st == some DEMO_SENTINEL

/-- getMockResponse: the canned payload returned in demo mode, chosen
by substring tests on the endpoint, in source order. The artificial
randomized delay of the source is timing behaviour outside this
embedding. -/
def getMockResponse (endpoint : String) : Value :=
  if jsIncludes endpoint "/dashboard/stats" then
    .obj [("status", .str "success"), ("stats", .obj [("total_queries", .num 0)])]
  else if jsIncludes endpoint "/dashboard/activity" then
    .obj [("status", .str "success"), ("activity", .arr [])]
  else if jsIncludes endpoint "/dashboard/weekly" then
    .obj [("status", .str "success"), ("weekly", .arr [])]
  else if jsIncludes endpoint "/knowledge" then
    .obj [("status", .str "success"), ("categories", .obj [])]
  else if jsIncludes endpoint "/system-instructions" then
    .obj [("status", .str "success"), ("content", .str "")]
  else if jsIncludes endpoint "/projects" then
    .obj [("status", .str "success"), ("projects", .arr [])]
  else if jsIncludes endpoint "/contacts" then
    .obj [("status", .str "success"),
          ("contact", .obj [("email", .str ""), ("socials", .obj [])])]
  else if jsIncludes endpoint "/communication" then
    .obj [("status", .str "success"), ("records", .arr []), ("count", .num 0)]
  else
    .obj [("status", .str "success"), ("data", .arr [])]

/-- What one call to apiRequest does before any response arrives:
either a locally produced mock payload (demo mode) or a real network
request with the given absolute url and optional auth header. -/
inductive RequestOutcome : Type where
  | mock (payload : Value)
  | network (url : String) (authHeader : Option String)

/-- apiRequest, up to the point the request leaves the client: in demo
mode it returns the mock payload and issues no network call; otherwise
it issues the request, attaching a bearer header when a token is
present and truthy. -/
def apiRequest (st : Storage) (endpoint : String) : RequestOutcome :=
  if isDemoMode st then
    .mock (getMockResponse endpoint)
  else
    .network (API_BASE_URL ++ endpoint)
      (if jsTruthy (getToken st) then (getToken st).map (fun t => "Bearer " ++ t) else none)

/-- What the health check does: in demo mode it returns true with no
network call, otherwise it fetches the health endpoint. -/
inductive HealthOutcome : Type where
  | demo (result : Bool)
  | network (url : String)
deriving DecidableEq, Repr

/-- Discriminator: whether a request outcome is a locally produced
mock (no network call). -/
def RequestOutcome.isMock : RequestOutcome → Bool
  | .mock _ => true
  | .network _ _ => false

/-- healthApi.check, up to the point the request leaves the client. -/
def healthCheck (st : Storage) : HealthOutcome :=
  if isDemoMode st then .demo true
  else .network (API_BASE_URL ++ "/api/v1/health")

/-- An HTTP response as handleResponse sees it: status, the optional
X-New-Token header, and the parsed JSON body (the source parses the
body of failure responses with an empty-object fallback; the parsed
result is taken as given here). -/
structure HttpResponse : Type where
  status : Nat
  newTokenHeader : Option String
  body : Value

/-- Response.ok of fetch: status in the 200 to 299 range. -/
def responseOk (r : HttpResponse) : Bool :=
  decide (200 ≤ r.status) && decide (r.status ≤ 299)

/-- handleTokenRefresh: when the X-New-Token header is present and
truthy, store it in tab-scoped storage under the token key. -/
def handleTokenRefresh (st : Storage) (r : HttpResponse) : Storage :=
  if jsTruthy r.newTokenHeader then
    { st with sessionS := insertKV st.sessionS TOKEN_STORAGE_KEY (r.newTokenHeader.getD "") }
  else st

/-- The detail field of a parsed error body, when it is a string. -/
def jsonDetail : Value → Option String
  | .obj fields =>
      match lookupKV fields "detail" with
      | some (.str s) => some s
      | _ => none
  | _ => none

/-- The message of a thrown error: the detail field when truthy, else
the HTTP fallback text. -/
def respErrorMessage (r : HttpResponse) : String :=
  match jsonDetail r.body with
  | some s => if s = "" then "HTTP " ++ toString r.status else s
  | none => "HTTP " ++ toString r.status

/-- handleResponse: applies the token refresh, then on a non-2xx
status clears the tab-scoped token and user info and broadcasts
auth:expired when the status is 401, and throws the typed error; on a
2xx status returns the body. The middle component lists the names of
the process-wide events dispatched. -/
def handleResponse (st : Storage) (r : HttpResponse) :
    Storage × List String × Except ApiError Value :=
  let st1 := handleTokenRefresh st r
  if responseOk r then
    (st1, [], .ok r.body)
  else if r.status == 401 then
    ({ st1 with sessionS := eraseKV (eraseKV st1.sessionS TOKEN_STORAGE_KEY) USER_INFO_KEY },
     ["auth:expired"],
     .error ⟨respErrorMessage r, r.status, r.body⟩)
  else
    (st1, [], .error ⟨respErrorMessage r, r.status, r.body⟩)

/-- authApi.logout: removes the token and user info from tab-scoped
storage and the legacy admin_session entry from persistent storage,
returning the literal success object. It is a pure storage
transformation: no RequestOutcome is produced, so no network call is
modelled or made. -/
def logout (st : Storage) : Storage × Value :=
  ({ sessionS := eraseKV (eraseKV st.sessionS TOKEN_STORAGE_KEY) USER_INFO_KEY,
     localS := eraseKV st.localS "admin_session" },
   .obj [("status", .str "success")])

/-! ## Session cache (helpers.js) -/

/-- The fixed key prefix of the cache, named CACHE_PREFIX in the
source. -/
def CACHE_PREFIX_STR : String := "cache_"

/-- The sessionStorage area as the cache sees it. The source stores
JSON.stringify of the value and parses on read; on the JSON-like
values of this embedding that round trip is the identity, so the store
holds the values themselves. -/
abbrev CacheStore : Type := List (String × Value)

/-- getCached: null on a missing key, else the parsed stored value.
A stored null is indistinguishable from an absent key, exactly as in
the source. -/
def getCached (st : CacheStore) (key : String) : Value :=
  match lookupKV st (CACHE_PREFIX_STR ++ key) with
  | none => .null
  | some v => v

/-- setCached: stores the value under the prefixed key. -/
def setCached (st : CacheStore) (key : String) (v : Value) : CacheStore :=
  insertKV st (CACHE_PREFIX_STR ++ key) v

/-- clearCached: removes the prefixed key. -/
def clearCached (st : CacheStore) (key : String) : CacheStore :=
  eraseKV st (CACHE_PREFIX_STR ++ key)

/-- cachedApiCall: unless a refresh is forced, a cached non-null value
is returned without invoking the producer; otherwise the producer is
invoked, its result cached and returned. The last component counts the
producer invocations this call performed. -/
def cachedApiCall (st : CacheStore) (cacheKey : String) (apiFn : Unit → Value)
    (forceRefresh : Bool) : Value × CacheStore × Nat :=
  if forceRefresh = false then
    let cached := getCached st cacheKey
    if cached.isNull = false then
      (cached, st, 0)
    else
      let d := apiFn ()
      (d, setCached st cacheKey d, 1)
  else
    let d := apiFn ()
    (d, setCached st cacheKey d, 1)

/-! ## Store lemmas -/

theorem lookupKV_insertKV_self {α : Type} (m : List (String × α)) (k : String) (v : α) :
    lookupKV (insertKV m k v) k = some v := by
  induction m with
  | nil => simp [insertKV, lookupKV]
  | cons p rest ih =>
      obtain ⟨k1, v1⟩ := p
      by_cases h : k1 = k
      · simp [insertKV, h, lookupKV]
      · simp [insertKV, h, lookupKV, ih]

theorem lookupKV_eraseKV_self {α : Type} (m : List (String × α)) (k : String) :
    lookupKV (eraseKV m k) k = none := by
  induction m with
  | nil => simp [eraseKV, lookupKV]
  | cons p rest ih =>
      obtain ⟨k1, v1⟩ := p
      by_cases h : k1 = k
      · simp [eraseKV, h, ih]
      · simp [eraseKV, h, lookupKV, ih]

theorem lookupKV_eraseKV_ne {α : Type} (m : List (String × α)) (k k2 : String)
    (h : k ≠ k2) : lookupKV (eraseKV m k2) k = lookupKV m k := by
  induction m with
  | nil => simp [eraseKV]
  | cons p rest ih =>
      obtain ⟨k1, v1⟩ := p
      by_cases h1 : k1 = k2
      · subst h1
        have h2 : ¬ k1 = k := fun hh => h (hh ▸ rfl)
        simp [eraseKV, lookupKV, h2, ih]
      · by_cases h3 : k1 = k
        · subst h3
          simp [eraseKV, h, lookupKV]
        · simp [eraseKV, h1, lookupKV, h3, ih]

/-! ## Notification queue lemmas -/

theorem updateToast_eq_map (id : String) (u : PartialToast) (q : List Toast) :
    (updateToast id u q).1 = q.map (fun x => if x.id = id then mergeToast x u else x) := by
  induction q with
  | nil => rfl
  | cons t rest ih =>
      by_cases h : t.id = id
      · simp [updateToast, h, ih]
      · simp [updateToast, h, ih]

theorem updateToast_length (id : String) (u : PartialToast) (q : List Toast) :
    (updateToast id u q).1.length = q.length := by
  rw [updateToast_eq_map]
  simp

theorem updateToast_absent (id : String) (u : PartialToast) (q : List Toast)
    (h : ∀ x ∈ q, x.id ≠ id) : updateToast id u q = (q, []) := by
  induction q with
  | nil => rfl
  | cons t rest ih =>
      have ht : ¬ t.id = id := h t (by simp)
      have hr := ih (fun x hx => h x (by simp [hx]))
      simp [updateToast, ht, hr]

theorem removeToast_absent (id : String) (q : List Toast)
    (h : ∀ x ∈ q, x.id ≠ id) : removeToast id q = q := by
  unfold removeToast
  rw [List.filter_eq_self]
  intro a ha
  simpa using h a ha

theorem updateToast_split (t : Toast) (u : PartialToast) (q1 q2 : List Toast)
    (h1 : ∀ x ∈ q1, x.id ≠ t.id) (h2 : ∀ x ∈ q2, x.id ≠ t.id) :
    updateToast t.id u (q1 ++ t :: q2)
      = (q1 ++ mergeToast t u :: q2, (dataChangedTag t u).toList) := by
  induction q1 with
  | nil =>
      have hr := updateToast_absent t.id u q2 h2
      simp [updateToast, hr]
  | cons a rest ih =>
      have ha : ¬ a.id = t.id := h1 a (by simp)
      have hrec := ih (fun x hx => h1 x (by simp [hx]))
      simp [updateToast, ha, hrec]

theorem stepToast_eq_specStepToast (q : List Toast) (op : ToastOp) :
    stepToast q op = specStepToast q op := by
  cases op with
  | update id u =>
      simpa [stepToast, specStepToast] using updateToast_eq_map id u q
  | add g t => rfl
  | remove id => rfl
  | showSuccess g m ti => rfl
  | showError g m ti => rfl

theorem runToasts_eq_spec (ops : List ToastOp) :
    runToasts ops = ops.foldl specStepToast [] := by
  unfold runToasts
  suffices h : ∀ q : List Toast, ops.foldl stepToast q = ops.foldl specStepToast q from h []
  induction ops with
  | nil => intro q; rfl
  | cons op rest ih =>
      intro q
      rw [List.foldl_cons, List.foldl_cons, stepToast_eq_specStepToast]
      exact ih _

theorem mergeToast_id_of_ok (t : Toast) (u : PartialToast) (id : String)
    (hu : u.id = none ∨ u.id = some id) (ht : t.id = id) :
    (mergeToast t u).id = t.id := by
  cases hu with
  | inl h0 => simp [mergeToast, h0]
  | inr h0 => simp [mergeToast, h0, ht]

theorem queueIds_update (id : String) (u : PartialToast) (q : List Toast)
    (hu : u.id = none ∨ u.id = some id) :
    queueIds ((updateToast id u q).1) = queueIds q := by
  rw [updateToast_eq_map]
  unfold queueIds
  rw [List.map_map]
  apply List.map_congr_left
  intro x _
  by_cases hx : x.id = id
  · simpa [hx] using mergeToast_id_of_ok x u id hu hx
  · simp [hx]

theorem nodup_stepToast (q : List Toast) (op : ToastOp)
    (hq : (queueIds q).Nodup) (hop : opOk q op) :
    (queueIds (stepToast q op)).Nodup := by
  cases op with
  | add g t =>
      have hids : queueIds (stepToast q (.add g t)) = queueIds q ++ [(fillToast g t).id] := by
        simp [stepToast, addToast, queueIds]
      rw [hids, List.nodup_append]
      refine ⟨hq, List.nodup_singleton _, ?_⟩
      intro b hb hb2
      simp at hb2
      subst hb2
      exact hop hb
  | update id u =>
      have : queueIds (stepToast q (.update id u)) = queueIds q := queueIds_update id u q hop
      rw [this]
      exact hq
  | remove id =>
      have hs : List.Sublist (queueIds (stepToast q (.remove id))) (queueIds q) :=
        List.Sublist.map Toast.id (List.filter_sublist q)
      exact List.Nodup.sublist hs hq
  | showSuccess g m ti =>
      have hids : queueIds (stepToast q (.showSuccess g m ti)) = queueIds q ++ [g] := by
        simp [stepToast, addToast, queueIds, fillToast]
      rw [hids, List.nodup_append]
      refine ⟨hq, List.nodup_singleton _, ?_⟩
      intro b hb hb2
      simp at hb2
      subst hb2
      exact hop hb
  | showError g m ti =>
      have hids : queueIds (stepToast q (.showError g m ti)) = queueIds q ++ [g] := by
        simp [stepToast, addToast, queueIds, fillToast]
      rw [hids, List.nodup_append]
      refine ⟨hq, List.nodup_singleton _, ?_⟩
      intro b hb hb2
      simp at hb2
      subst hb2
      exact hop hb

theorem nodup_runAux (ops : List ToastOp) :
    ∀ q : List Toast, (queueIds q).Nodup → okRun q ops →
      (queueIds (ops.foldl stepToast q)).Nodup := by
  induction ops with
  | nil => intro q hq _; simpa using hq
  | cons op rest ih =>
      intro q hq hok
      obtain ⟨h1, h2⟩ := hok
      rw [List.foldl_cons]
      exact ih _ (nodup_stepToast q op hq h1) h2

theorem handleTokenRefresh_localS (st : Storage) (r : HttpResponse) :
    (handleTokenRefresh st r).localS = st.localS := by
  unfold handleTokenRefresh
  split <;> rfl

/-! ## Claim C10 -/

/-- C10 (confirmed): setting a key and reading it back returns the
stored value, for every JSON-serializable value, the absent-like
values included; clearing a key makes the next read return the absent
indicator (null). -/
theorem c10_cache_round_trip (st : CacheStore) (k : String) (v : Value) :
    getCached (setCached st k v) k = v
  ∧ getCached (clearCached st k) k = Value.null := by
  constructor
  · unfold getCached setCached
    rw [lookupKV_insertKV_self]
  · unfold getCached clearCached
    rw [lookupKV_eraseKV_self]

/-! ## Claim C3 -/

/-- C3 (counterexample): a producer that returns null is invoked by
both of two successive readThrough calls with forceRefresh false,
because the cached null is indistinguishable from a cache miss; the
claim says at most one invocation in total for every producer value. -/
theorem c3_counterexample :
    (cachedApiCall [] "k" (fun _ => Value.null) false).2.2
      + (cachedApiCall (cachedApiCall [] "k" (fun _ => Value.null) false).2.1 "k"
          (fun _ => Value.null) false).2.2 = 2 := by
  rfl

/-- C3 (amended): provided the producer result is not null, two
successive readThrough calls with forceRefresh false invoke the
producer at most once in total and the second call returns the value
of the first; a call with forceRefresh true always invokes the
producer; after clear, the next readThrough invokes its producer. -/
theorem c3_amended (st : CacheStore) (k : String) (f f2 : Unit → Value) :
    ((f ()).isNull = false →
      (cachedApiCall st k f false).2.2
        + (cachedApiCall (cachedApiCall st k f false).2.1 k f false).2.2 ≤ 1
      ∧ (cachedApiCall (cachedApiCall st k f false).2.1 k f false).1
          = (cachedApiCall st k f false).1)
  ∧ (cachedApiCall st k f true).2.2 = 1
  ∧ (cachedApiCall (clearCached st k) k f2 false).2.2 = 1 := by
  refine ⟨?_, ?_, ?_⟩
  · intro hf
    cases hb : (getCached st k).isNull with
    | false =>
        constructor
        · simp [cachedApiCall, hb]
        · simp [cachedApiCall, hb]
    | true =>
        have hget : getCached (setCached st k (f ())) k = f () := by
          unfold getCached setCached
          rw [lookupKV_insertKV_self]
        constructor
        · simp [cachedApiCall, hb, hget, hf]
        · simp [cachedApiCall, hb, hget, hf]
  · simp [cachedApiCall]
  · have hclr : getCached (clearCached st k) k = Value.null := by
      unfold getCached clearCached
      rw [lookupKV_eraseKV_self]
    simp [cachedApiCall, hclr, Value.isNull]

/-- C3 (witness): the amended theorem applied to an empty cache and a
producer returning a string value. -/
theorem c3_amended_witness :
    (cachedApiCall [] "k" (fun _ => Value.str "v") false).2.2
      + (cachedApiCall (cachedApiCall [] "k" (fun _ => Value.str "v") false).2.1 "k"
          (fun _ => Value.str "v") false).2.2 ≤ 1 :=
  ((c3_amended [] "k" (fun _ => Value.str "v") (fun _ => Value.str "w")).1 rfl).1

/-! ## Claim C6 -/

/-- C6 (confirmed): an API error is an auth error exactly on status
401 or 403, a server error exactly on status at least 500, a network
error exactly on status 0; at most one of the three predicates holds
for every status; in particular 401 gives an auth error, 503 a server
error, 0 a network error. -/
theorem c6_error_classification :
    (∀ e : ApiError,
        (e.isAuthError = true ↔ (e.status = 401 ∨ e.status = 403))
      ∧ (e.isServerError = true ↔ 500 ≤ e.status)
      ∧ (e.isNetworkError = true ↔ e.status = 0)
      ∧ (e.isAuthError && e.isServerError) = false
      ∧ (e.isAuthError && e.isNetworkError) = false
      ∧ (e.isServerError && e.isNetworkError) = false)
  ∧ (ApiError.mk "m" 401 Value.null).isAuthError = true
  ∧ (ApiError.mk "m" 503 Value.null).isServerError = true
  ∧ (ApiError.mk "m" 0 Value.null).isNetworkError = true := by
  refine ⟨fun e => ⟨?_, ?_, ?_, ?_, ?_, ?_⟩, rfl, rfl, rfl⟩
  · simp [ApiError.isAuthError]
  · simp [ApiError.isServerError]
  · simp [ApiError.isNetworkError]
  · rw [Bool.and_eq_false_iff]
    by_cases h : e.status = 401 ∨ e.status = 403
    · right
      simp only [ApiError.isServerError, decide_eq_false_iff_not]
      omega
    · left
      simp only [ApiError.isAuthError, Bool.or_eq_false_iff, beq_eq_false_iff_ne]
      omega
  · rw [Bool.and_eq_false_iff]
    by_cases h : e.status = 0
    · left
      simp only [ApiError.isAuthError, Bool.or_eq_false_iff, beq_eq_false_iff_ne]
      omega
    · right
      simp [ApiError.isNetworkError, h]
  · rw [Bool.and_eq_false_iff]
    by_cases h : e.status = 0
    · left
      simp only [ApiError.isServerError, decide_eq_false_iff_not]
      omega
    · right
      simp [ApiError.isNetworkError, h]

/-- C6 (witness): the classification applied to a concrete error with
status 401. -/
theorem c6_witness :
    (ApiError.mk "m" 401 Value.null).status = 401
      ∨ (ApiError.mk "m" 401 Value.null).status = 403 :=
  ((c6_error_classification.1 (ApiError.mk "m" 401 Value.null)).1).mp rfl

/-! ## Claim C1 -/

/-- C1 (counterexample): an add whose supplied id is the empty string
stores an entry whose id is the empty string but returns a freshly
generated id, so add does not always return the id of the entry it
appends; the queue after the operation contains no entry carrying the
returned id. -/
theorem c1_counterexample :
    (addToast "gen1" { id := some "" } []).1 = "gen1"
  ∧ queueIds (addToast "gen1" { id := some "" } []).2 = [""]
  ∧ (queueIds (addToast "gen1" { id := some "" } []).2).contains
      (addToast "gen1" { id := some "" } []).1 = false := by
  exact ⟨rfl, rfl, rfl⟩

/-- C1 (amended): for every finite sequence of operations from the
empty queue the resulting list equals the left-to-right application of
the specification steps (add appends one entry with the documented
defaults filled in, update shallow-merges the partial fields into the
matching entries with last write winning per field, remove deletes the
matching entries); add returns the id of the appended entry whenever
the supplied id is absent or nonempty; update and remove applied to an
id not present in the queue leave the queue unchanged. -/
theorem c1_amended :
    (∀ ops : List ToastOp, runToasts ops = ops.foldl specStepToast [])
  ∧ (∀ (g : String) (t : PartialToast) (q : List Toast), t.id ≠ some "" →
      (addToast g t q).2 = q ++ [fillToast g t]
      ∧ (addToast g t q).1 = (fillToast g t).id)
  ∧ (∀ (id : String) (u : PartialToast) (q : List Toast),
      (∀ x ∈ q, x.id ≠ id) → (updateToast id u q).1 = q)
  ∧ (∀ (id : String) (q : List Toast),
      (∀ x ∈ q, x.id ≠ id) → removeToast id q = q) := by
  refine ⟨runToasts_eq_spec, ?_, ?_, ?_⟩
  · intro g t q ht
    refine ⟨rfl, ?_⟩
    unfold addToast addReturnedId fillToast
    cases h : t.id with
    | none => rfl
    | some s =>
        have hs : ¬ s = "" := by
          intro hh
          exact ht (by rw [h, hh])
        simp [hs]
  · intro id u q h
    rw [updateToast_absent id u q h]
  · intro id q h
    exact removeToast_absent id q h

/-- C1 (witness): the amended theorem applied to a singleton run, an
add with a nonempty supplied id, and update and remove on the empty
queue. -/
theorem c1_amended_witness :
    runToasts [ToastOp.add "g1" {}] = [ToastOp.add "g1" {}].foldl specStepToast []
  ∧ (addToast "g1" { id := some "x" } []).1 = (fillToast "g1" { id := some "x" }).id
  ∧ (updateToast "z" {} []).1 = []
  ∧ removeToast "z" [] = [] :=
  ⟨c1_amended.1 [ToastOp.add "g1" {}],
   (c1_amended.2.1 "g1" { id := some "x" } [] (by decide)).2,
   c1_amended.2.2.1 "z" {} [] (by simp),
   c1_amended.2.2.2 "z" [] (by simp)⟩

/-! ## Claim C5 -/

/-- C5 (counterexample): scenario A of the specification fails on the
code: after add with title Upload and status pending (and hence empty
type and action), the update that sets status complete and type upload
merges the fields but dispatches NO data-changed broadcast, because
the source classifies the PRE-update entry, whose type and action are
empty. The claim requires a broadcast tagged upload. -/
theorem c5_counterexample :
    (updateToast "X" { status := some "complete", type := some "upload" }
        (addToast "X" { title := some "Upload", status := some "pending" } []).2).2 = []
  ∧ (updateToast "X" { status := some "complete", type := some "upload" }
        (addToast "X" { title := some "Upload", status := some "pending" } []).2).1.map
        Toast.status = ["complete"] := by
  exact ⟨by decide, by decide⟩

/-- C5 (amended): when an update changes status from a non-complete
value to complete, the dispatched broadcast is computed from the
PRE-update entry: its type string or, when that is empty, its
lowercased action; if that string contains the keyword upload, exactly
one data-changed broadcast tagged upload is emitted for a queue
holding one matching entry; no broadcast is emitted when status does
not transition into complete; and an entry added with type upload and
status pending, then updated to status complete, yields a queue with
that entry complete and exactly one broadcast tagged upload. -/
theorem c5_amended :
    (∀ (t : Toast) (u : PartialToast) (q1 q2 : List Toast),
        (∀ x ∈ q1, x.id ≠ t.id) → (∀ x ∈ q2, x.id ≠ t.id) →
        updateToast t.id u (q1 ++ t :: q2)
          = (q1 ++ mergeToast t u :: q2, (dataChangedTag t u).toList))
  ∧ (∀ (t : Toast) (u : PartialToast),
        u.status = some "complete" → t.status ≠ "complete" →
        jsIncludes (eventTypeOf t) "upload" = true → dataChangedTag t u = some "upload")
  ∧ (∀ (t : Toast) (u : PartialToast),
        ¬(u.status = some "complete" ∧ t.status ≠ "complete") → dataChangedTag t u = none)
  ∧ ((updateToast "X" { status := some "complete" }
        (addToast "X" { title := some "Upload", status := some "pending",
                        type := some "upload" } []).2).1.map Toast.status = ["complete"]
      ∧ (updateToast "X" { status := some "complete" }
        (addToast "X" { title := some "Upload", status := some "pending",
                        type := some "upload" } []).2).2 = ["upload"]) := by
  refine ⟨updateToast_split, ?_, ?_, rfl, rfl⟩
  · intro t u h1 h2 h3
    unfold dataChangedTag
    rw [if_pos ⟨h1, h2⟩]
    simp [h3]
  · intro t u h
    unfold dataChangedTag
    rw [if_neg h]

/-- C5 (witness): the amended update equation applied to a singleton
queue holding one default entry. -/
theorem c5_amended_witness :
    updateToast (fillToast "A" {}).id {} ([] ++ fillToast "A" {} :: [])
      = ([] ++ mergeToast (fillToast "A" {}) {} :: [],
         (dataChangedTag (fillToast "A" {}) {}).toList) :=
  c5_amended.1 (fillToast "A" {}) {} [] [] (by simp) (by simp)

/-! ## Claim C9 -/

/-- C9 (counterexample): two add operations that supply the same id
produce a queue with two entries of that id, so the at-most-one-entry-
per-id invariant fails for add calls that supply their own id. -/
theorem c9_counterexample :
    queueIds (runToasts [ToastOp.add "g1" { id := some "x" },
        ToastOp.add "g2" { id := some "x" }]) = ["x", "x"]
  ∧ (queueIds (runToasts [ToastOp.add "g1" { id := some "x" },
        ToastOp.add "g2" { id := some "x" }])).count "x" = 2 := by
  exact ⟨rfl, rfl⟩

/-- C9 (amended): along every run in which each entry-creating
operation uses an id not currently in the queue and each update
carries no id field other than its target, the queue holds at most one
entry per id; update on an absent id is a silent no-op (queue and
broadcasts unchanged) and an update never changes the number of
entries, so it never creates one. -/
theorem c9_amended :
    (∀ ops : List ToastOp, okRun [] ops → (queueIds (runToasts ops)).Nodup)
  ∧ (∀ (id : String) (u : PartialToast) (q : List Toast),
      (∀ x ∈ q, x.id ≠ id) → updateToast id u q = (q, []))
  ∧ (∀ (id : String) (u : PartialToast) (q : List Toast),
      (updateToast id u q).1.length = q.length) := by
  refine ⟨?_, updateToast_absent, updateToast_length⟩
  intro ops h
  exact nodup_runAux ops [] (by simp [queueIds]) h

/-- C9 (witness): the amended invariant applied to a concrete run of
an add with a generated id followed by a remove. -/
theorem c9_amended_witness :
    (queueIds (runToasts [ToastOp.add "g1" {}, ToastOp.remove "g1"])).Nodup :=
  c9_amended.1 [ToastOp.add "g1" {}, ToastOp.remove "g1"]
    (by simp [okRun, opOk, queueIds, stepToast, addToast])

/-! ## Claim C2 -/

/-- C2 (counterexample): a 401 response handled while the token sits
in persistent storage leaves isLoggedIn true afterwards, because the
handler clears only the tab-scoped storage; the claim requires
isLoggedIn to be false regardless of where the token was stored. The
auth:expired broadcast does fire. -/
theorem c2_counterexample :
    isLoggedIn (handleResponse (Storage.mk [] [("admin_token", "tok")])
        (HttpResponse.mk 401 none (Value.obj []))).1 = true
  ∧ (handleResponse (Storage.mk [] [("admin_token", "tok")])
        (HttpResponse.mk 401 none (Value.obj []))).2.1 = ["auth:expired"] := by
  exact ⟨rfl, rfl⟩

/-- C2 (amended): handling a response with status 401 removes the
token and the user info from tab-scoped storage, leaves persistent
storage untouched, broadcasts auth:expired, and throws the typed error
carrying status 401; afterwards isLoggedIn equals the truthiness of
whatever token persistent storage still holds, hence is false exactly
when the token was only in tab-scoped storage. -/
theorem c2_amended (st : Storage) (r : HttpResponse) (h : r.status = 401) :
    lookupKV (handleResponse st r).1.sessionS TOKEN_STORAGE_KEY = none
  ∧ lookupKV (handleResponse st r).1.sessionS USER_INFO_KEY = none
  ∧ (handleResponse st r).1.localS = st.localS
  ∧ (handleResponse st r).2.1 = ["auth:expired"]
  ∧ (∃ e : ApiError, (handleResponse st r).2.2 = Except.error e ∧ e.status = 401)
  ∧ isLoggedIn (handleResponse st r).1 = jsTruthy (lookupKV st.localS TOKEN_STORAGE_KEY) := by
  have hok : responseOk r = false := by
    simp [responseOk, h]
  have h401 : (r.status == 401) = true := by
    simp [h]
  have hne : TOKEN_STORAGE_KEY ≠ USER_INFO_KEY := by decide
  have hres : handleResponse st r
      = ({ handleTokenRefresh st r with
            sessionS := eraseKV (eraseKV (handleTokenRefresh st r).sessionS
              TOKEN_STORAGE_KEY) USER_INFO_KEY },
         ["auth:expired"],
         Except.error ⟨respErrorMessage r, r.status, r.body⟩) := by
    unfold handleResponse
    rw [hok, h401]
    simp
  have htok : lookupKV (eraseKV (eraseKV (handleTokenRefresh st r).sessionS
      TOKEN_STORAGE_KEY) USER_INFO_KEY) TOKEN_STORAGE_KEY = none := by
    rw [lookupKV_eraseKV_ne _ _ _ hne, lookupKV_eraseKV_self]
  refine ⟨by rw [hres]; exact htok,
          by rw [hres]; exact lookupKV_eraseKV_self _ _,
          by rw [hres]; exact handleTokenRefresh_localS st r,
          by rw [hres],
          ⟨⟨respErrorMessage r, r.status, r.body⟩, by rw [hres], h⟩, ?_⟩
  rw [hres]
  unfold isLoggedIn getToken
  simp only [htok]
  rw [handleTokenRefresh_localS st r]
  simp [jsTruthy]

/-- C2 (witness): the amended theorem applied to a state whose token
is tab-scoped only, giving isLoggedIn false after the 401. -/
theorem c2_amended_witness :
    isLoggedIn (handleResponse (Storage.mk [("admin_token", "t1")] [])
        (HttpResponse.mk 401 none (Value.obj []))).1
      = jsTruthy (lookupKV (Storage.mk [("admin_token", "t1")] []).localS
          TOKEN_STORAGE_KEY) :=
  (c2_amended (Storage.mk [("admin_token", "t1")] [])
    (HttpResponse.mk 401 none (Value.obj [])) rfl).2.2.2.2.2

/-! ## Claim C7 -/

/-- C7 (counterexample): with the token in persistent storage under
the token key, logout leaves it there (it removes only the legacy
admin_session entry from persistent storage), so isLoggedIn is still
true afterwards; the claim requires false for every starting state. -/
theorem c7_counterexample :
    isLoggedIn (logout (Storage.mk [] [("admin_token", "tok")])).1 = true := by
  rfl

/-- C7 (amended): logout makes no network call (it is a pure storage
transformation returning the literal success object), removes the
token and the user info from tab-scoped storage and the legacy
admin_session entry from persistent storage; afterwards isLoggedIn
equals the truthiness of the persistent-storage token, hence is false
whenever the token was not in persistent storage under the token key. -/
theorem c7_amended (st : Storage) :
    lookupKV (logout st).1.sessionS TOKEN_STORAGE_KEY = none
  ∧ lookupKV (logout st).1.sessionS USER_INFO_KEY = none
  ∧ lookupKV (logout st).1.localS "admin_session" = none
  ∧ isLoggedIn (logout st).1 = jsTruthy (lookupKV st.localS TOKEN_STORAGE_KEY)
  ∧ (logout st).2 = Value.obj [("status", Value.str "success")] := by
  have hne : TOKEN_STORAGE_KEY ≠ USER_INFO_KEY := by decide
  have htok : lookupKV (logout st).1.sessionS TOKEN_STORAGE_KEY = none := by
    unfold logout
    exact (lookupKV_eraseKV_ne _ _ _ hne).trans (lookupKV_eraseKV_self _ _)
  have hloc : lookupKV (logout st).1.localS TOKEN_STORAGE_KEY
      = lookupKV st.localS TOKEN_STORAGE_KEY := by
    unfold logout
    exact lookupKV_eraseKV_ne _ _ _ (by decide)
  refine ⟨htok, by unfold logout; exact lookupKV_eraseKV_self _ _,
          by unfold logout; exact lookupKV_eraseKV_self _ _, ?_, rfl⟩
  unfold isLoggedIn getToken
  simp only [htok, hloc]
  simp [jsTruthy]

/-! ## Claim C8 -/

/-- C8 (counterexample): a replacement token is stored tab-scoped
only; a prior token held in persistent storage stays stored there
after the refresh, so the prior token is still resolvable from a
storage location the client reads, contrary to the claim; the
resolved token does equal the new one. -/
theorem c8_counterexample :
    getToken (handleTokenRefresh (Storage.mk [] [("admin_token", "old")])
        (HttpResponse.mk 200 (some "new") (Value.obj []))) = some "new"
  ∧ lookupKV (handleTokenRefresh (Storage.mk [] [("admin_token", "old")])
        (HttpResponse.mk 200 (some "new") (Value.obj []))).localS TOKEN_STORAGE_KEY
      = some "old" := by
  exact ⟨rfl, rfl⟩

/-- C8 (amended): a nonempty replacement token carried in the
designated header is stored in tab-scoped storage under the token key,
overwriting any prior tab-scoped token; the token resolved for
subsequent requests equals the new token; persistent storage is left
untouched, so a prior token held there remains stored (shadowed by the
tab-scoped one). -/
theorem c8_amended (st : Storage) (r : HttpResponse) (tok : String)
    (h1 : r.newTokenHeader = some tok) (h2 : tok ≠ "") :
    lookupKV (handleTokenRefresh st r).sessionS TOKEN_STORAGE_KEY = some tok
  ∧ getToken (handleTokenRefresh st r) = some tok
  ∧ (handleTokenRefresh st r).localS = st.localS := by
  have htr : jsTruthy r.newTokenHeader = true := by
    simp [h1, jsTruthy, h2]
  have hsess : (handleTokenRefresh st r).sessionS
      = insertKV st.sessionS TOKEN_STORAGE_KEY tok := by
    unfold handleTokenRefresh
    rw [htr]
    simp [h1]
  have hlook : lookupKV (handleTokenRefresh st r).sessionS TOKEN_STORAGE_KEY
      = some tok := by
    rw [hsess, lookupKV_insertKV_self]
  refine ⟨hlook, ?_, handleTokenRefresh_localS st r⟩
  unfold getToken
  simp [hlook, jsTruthy, h2]

/-- C8 (witness): the amended theorem applied to an empty storage and
a response carrying the header token. -/
theorem c8_amended_witness :
    getToken (handleTokenRefresh (Storage.mk [] [])
        (HttpResponse.mk 200 (some "new") (Value.obj []))) = some "new" :=
  (c8_amended (Storage.mk [] []) (HttpResponse.mk 200 (some "new") (Value.obj []))
    "new" rfl (by decide)).2.1

/-! ## Claim C4 -/

/-- C4 (confirmed): whenever the resolved token equals the reserved
demo sentinel, every apiRequest returns a locally produced mock
payload and issues no network call, the health check returns true with
no network call, and the mock payload of each endpoint group is the
documented canned success shape (the artificial randomized delay of
the source is timing behaviour outside this embedding). -/
theorem c4_demo_mode (st : Storage) (endpoint : String) (h : isDemoMode st = true) :
    apiRequest st endpoint = RequestOutcome.mock (getMockResponse endpoint)
  ∧ (apiRequest st endpoint).isMock = true
  ∧ healthCheck st = HealthOutcome.demo true
  ∧ getMockResponse "/api/v1/dashboard/stats"
      = Value.obj [("status", .str "success"),
                   ("stats", .obj [("total_queries", .num 0)])]
  ∧ getMockResponse "/api/v1/dashboard/activity?limit=10"
      = Value.obj [("status", .str "success"), ("activity", .arr [])]
  ∧ getMockResponse "/api/v1/dashboard/weekly"
      = Value.obj [("status", .str "success"), ("weekly", .arr [])]
  ∧ getMockResponse "/api/v1/knowledge"
      = Value.obj [("status", .str "success"), ("categories", .obj [])]
  ∧ getMockResponse "/api/v1/knowledge/categories"
      = Value.obj [("status", .str "success"), ("categories", .obj [])]
  ∧ getMockResponse "/api/v1/system-instructions"
      = Value.obj [("status", .str "success"), ("content", .str "")]
  ∧ getMockResponse "/api/v1/projects"
      = Value.obj [("status", .str "success"), ("projects", .arr [])]
  ∧ getMockResponse "/api/v1/contacts"
      = Value.obj [("status", .str "success"),
                   ("contact", .obj [("email", .str ""), ("socials", .obj [])])]
  ∧ getMockResponse "/api/v1/communication"
      = Value.obj [("status", .str "success"), ("records", .arr []), ("count", .num 0)] := by
  refine ⟨by simp [apiRequest, h], by simp [apiRequest, h, RequestOutcome.isMock],
          by simp [healthCheck, h], rfl, rfl, rfl, rfl, rfl, rfl, rfl, rfl, rfl⟩

/-- C4 (witness): the demo-mode theorem applied to a storage whose
tab-scoped token is the sentinel and to the projects endpoint. -/
theorem c4_demo_mode_witness :
    apiRequest (Storage.mk [("admin_token", "TEST_TOKEN_DEMO_MODE")] [])
        "/api/v1/projects"
      = RequestOutcome.mock (getMockResponse "/api/v1/projects") :=
  (c4_demo_mode (Storage.mk [("admin_token", "TEST_TOKEN_DEMO_MODE")] [])
    "/api/v1/projects" rfl).1

end Portfolio
